import Mathlib

/-!
Shallow embedding of the mqtt-sensor-pipeline core, checked against its
natural-language specification.

Part 1 — the ingestion recorder (src/receiver/receiver.py).
Times, latencies and stored values are modelled as exact rationals (the
Python source computes with floats); the SQLite store is modelled as three
tables, each split into a committed part and a pending (inserted but not
yet committed) part, with `DB.commit` moving every pending row into the
committed part, as a SQLite transaction commit does.  The MQTT transport,
logging and the filesystem are external collaborators and are not part of
the embedding: `on_message` receives the decoded payload (`none` for a
payload `json.loads` rejects) and the wall-clock instant of the callback.
The Python callback reads `time.time()` more than once while handling one
message; the embedding passes the single instant `now` for all of them.
The `sqlite3.Error` recovery paths (log, best-effort commit, continue) are
not modelled: the embedded store never fails.
-/

/-- One row of the `sensor_data` table, as `store_message` inserts it
(receiver.py lines 186-217).  `id` models SQLite's autoincrement rowid. -/
structure ScanRow where
  id : ℕ
  timestamp : ℚ
  receive_time : ℚ
  message_id : ℤ
  device_id : String
  latency_ms : Option ℚ

/-- One row of the `sensor_readings` table: (data_id, angle, value). -/
structure ReadingRow where
  data_id : ℕ
  angle : String
  value : ℚ

/-- One row of the `performance_stats` table, as `save_statistics_snapshot`
inserts it (receiver.py lines 271-275). -/
structure SnapRow where
  timestamp : ℚ
  message_count : ℕ
  avg_latency : ℚ
  min_latency : ℚ
  max_latency : ℚ
  p95_latency : ℚ
  throughput : ℚ

/-- The SQLite store: each table split into committed rows and pending
(inserted, not yet committed) rows, plus a count of `commit()` calls. -/
structure DB where
  committed_scans : List ScanRow
  pending_scans : List ScanRow
  committed_readings : List ReadingRow
  pending_readings : List ReadingRow
  committed_snaps : List SnapRow
  pending_snaps : List SnapRow
  commit_count : ℕ

/-- `db_connection.commit()`: every pending row becomes durable. -/
def DB.commit (db : DB) : DB :=
  { committed_scans := db.committed_scans ++ db.pending_scans
    pending_scans := []
    committed_readings := db.committed_readings ++ db.pending_readings
    pending_readings := []
    committed_snaps := db.committed_snaps ++ db.pending_snaps
    pending_snaps := []
    commit_count := db.commit_count + 1 }

/-- All `sensor_data` rows present in the store (committed or pending). -/
def DB.allScans (db : DB) : List ScanRow :=
  db.committed_scans ++ db.pending_scans

/-- How many `performance_stats` rows the store holds (committed or pending). -/
def DB.totalSnaps (db : DB) : ℕ :=
  db.committed_snaps.length + db.pending_snaps.length

/-- A decoded inbound payload.  Each field the Python code reads with
`data.get`/`in` is an `Option`; `readings := none` also covers a `readings`
entry that is not a dict (the `isinstance` check of line 206). -/
structure Payload where
  timestamp : Option ℚ
  message_id : Option ℤ
  device_id : Option String
  send_time : Option ℚ
  readings : Option (List (String × ℚ))

/-- The receiver's module-level mutable state (receiver.py lines 32-41):
the unbounded latency list, the message counter, the stream start time,
the last wall-clock report time, and the SQLite store. -/
structure RecvState where
  latencies : List ℚ
  message_counts : ℕ
  start_time : ℚ
  last_report_time : ℚ
  db : DB

/-- `reporting_interval = 5` (receiver.py line 37): report stats every 5 s. -/
def reporting_interval : ℕ := 5

/-- The state at startup: `latencies = []`, `message_counts = 0`, an empty
store; `start_time` (set in `on_connect`) and `last_report_time` (set at
module load) are both modelled as the startup instant `t0`. -/
def initState (t0 : ℚ) : RecvState :=
  { latencies := []
    message_counts := 0
    start_time := t0
    last_report_time := t0
    db := ⟨[], [], [], [], [], [], 0⟩ }

/-- `store_message(data, receive_time, latency)` (receiver.py lines 186-226):
insert one `sensor_data` row (missing `timestamp` defaults to the current
time, missing `message_id` to -1, missing `device_id` to "unknown"), then
the reading rows keyed by the fresh rowid, then commit iff the global
`message_counts` — already incremented by `on_message` — is a multiple
of 100. -/
def store_message (s : RecvState) (data : Payload) (receive_time : ℚ)
    (latency : Option ℚ) : RecvState :=
  let timestamp := data.timestamp.getD receive_time
  let message_id := data.message_id.getD (-1)
  let device_id := data.device_id.getD ("unknown")
  let data_id := s.db.committed_scans.length + s.db.pending_scans.length + 1
  let row : ScanRow := ⟨data_id, timestamp, receive_time, message_id, device_id, latency⟩
  let db1 := { s.db with pending_scans := s.db.pending_scans ++ [row] }
  -- readings are inserted only when the payload carries a dict of them;
  -- an absent map contributes no rows, written here as the empty default
  let db2 :=
    { db1 with pending_readings :=
        db1.pending_readings ++ (data.readings.getD []).map fun av => ⟨data_id, av.1, av.2⟩ }
  let db3 := if s.message_counts % 100 = 0 then db2.commit else db2
  { s with db := db3 }

/-- The latency figures `report_statistics` computes (receiver.py lines
241-244): `statistics.mean`, `min`, `max` and the p95 value. -/
structure LatencyStats where
  avg_latency : ℚ
  min_latency : ℚ
  max_latency : ℚ
  p95_latency : ℚ

/-- Lines 241-244 of receiver.py: mean, min, max, and
`sorted(latencies)[int(len(latencies) * 0.95)]`.  Python's `sorted` is the
ascending sort; `int` truncates, which on this non-negative value is the
floor.  `none` models the `IndexError` Python would raise were the index
out of range (`latency_stats_isSome` shows it never is on a nonempty list,
and every call site guards the empty list). -/
def latency_stats (l : List ℚ) : Option LatencyStats :=
  match l with
  | [] => none
  | x :: xs =>
    let sorted := (x :: xs).mergeSort fun a b => decide (a ≤ b)
    match sorted[(⌊(((x :: xs).length : ℚ) * (95 / 100) : ℚ)⌋).toNat]? with
    | none => none
    | some p =>
        some { avg_latency := (x :: xs).sum / ((x :: xs).length : ℚ)
               min_latency := xs.foldl min x
               max_latency := xs.foldl max x
               p95_latency := p }

/-- `save_statistics_snapshot` (receiver.py lines 253-280): insert one
`performance_stats` row and commit at once.  (The `CREATE TABLE IF NOT
EXISTS` is schema upkeep, with no effect on an existing store.) -/
def save_statistics_snapshot (s : RecvState) (now : ℚ) (st : LatencyStats)
    (throughput : ℚ) : RecvState :=
  let row : SnapRow :=
    ⟨now, s.message_counts, st.avg_latency, st.min_latency, st.max_latency,
      st.p95_latency, throughput⟩
  { s with db := (({ s.db with pending_snaps := s.db.pending_snaps ++ [row] }) : DB).commit }

/-- `report_statistics` (receiver.py lines 228-251): return at once when no
latency sample exists; otherwise compute throughput and the latency stats
(logging them is external), and persist a snapshot row iff `message_counts`
is an exact multiple of `100 * reporting_interval`. -/
def report_statistics (s : RecvState) (now : ℚ) : RecvState :=
  if s.latencies = [] then s
  else
    let runtime := now - s.start_time
    -- rational division is total (x / 0 = 0); Python would raise
    -- ZeroDivisionError at runtime = 0, which no claim here touches
    let throughput := (s.message_counts : ℚ) / runtime
    match latency_stats s.latencies with
    | none => s
    | some st =>
        if s.message_counts % (100 * reporting_interval) = 0 then
          save_statistics_snapshot s now st throughput
        else s

/-- `on_message` (receiver.py lines 152-184): an undecodable payload is
logged and dropped, touching nothing; a decoded payload yields a latency
when `send_time` is present (appended to `latencies`), increments
`message_counts`, is stored, and then — only when more than
`reporting_interval` seconds of wall clock passed since the last report —
statistics are reported and `last_report_time` is reset. -/
def on_message (s : RecvState) (payload : Option Payload) (now : ℚ) : RecvState :=
  match payload with
  | none => s
  | some data =>
    let latency := data.send_time.map fun st => (now - st) * 1000
    let s1 : RecvState :=
      { s with latencies := s.latencies ++ latency.toList
               message_counts := s.message_counts + 1 }
    let s2 := store_message s1 data now latency
    if (reporting_interval : ℚ) < now - s2.last_report_time then
      { report_statistics s2 now with last_report_time := now }
    else s2

/-- `close_database` (receiver.py lines 135-142): a final commit, then the
connection closes. -/
def close_database (s : RecvState) : RecvState :=
  { s with db := s.db.commit }

/-- A concrete decodable payload used by the concrete ingestion runs:
`send_time` present (so every message contributes a latency sample), no
readings map. -/
def samplePayload : Payload :=
  { timestamp := some 0
    message_id := some 1
    device_id := some ("dev")
    send_time := some 0
    readings := none }

/-- `n` deliveries of `samplePayload`, all at wall-clock instant 1, to a
receiver started at instant 0 (so the 5-second reporting interval never
elapses during the run). -/
def msgTrace : ℕ → RecvState
  | 0 => initState 0
  | n + 1 => on_message (msgTrace n) (some samplePayload) 1

/-! Structural lemmas about one handled message.  `store_message` touches
only the store; `report_statistics` touches only the snapshot table; the
scan-row trajectory of `on_message` is one appended row per decoded
payload. -/

theorem store_message_latencies (s : RecvState) (d : Payload) (rt : ℚ) (lat : Option ℚ) :
    (store_message s d rt lat).latencies = s.latencies := rfl

theorem store_message_counts (s : RecvState) (d : Payload) (rt : ℚ) (lat : Option ℚ) :
    (store_message s d rt lat).message_counts = s.message_counts := rfl

theorem store_message_last_report (s : RecvState) (d : Payload) (rt : ℚ) (lat : Option ℚ) :
    (store_message s d rt lat).last_report_time = s.last_report_time := rfl

theorem store_message_allScans (s : RecvState) (d : Payload) (rt : ℚ) (lat : Option ℚ) :
    (store_message s d rt lat).db.allScans
      = s.db.allScans ++ [⟨s.db.allScans.length + 1, d.timestamp.getD rt, rt,
          d.message_id.getD (-1), d.device_id.getD ("unknown"), lat⟩] := by
  unfold store_message DB.allScans DB.commit
  split <;> simp [List.length_append]

theorem store_message_commit_count (s : RecvState) (d : Payload) (rt : ℚ) (lat : Option ℚ) :
    (store_message s d rt lat).db.commit_count
      = if s.message_counts % 100 = 0 then s.db.commit_count + 1 else s.db.commit_count := by
  unfold store_message DB.commit
  split <;> simp_all

theorem store_message_totalSnaps (s : RecvState) (d : Payload) (rt : ℚ) (lat : Option ℚ) :
    (store_message s d rt lat).db.totalSnaps = s.db.totalSnaps := by
  unfold store_message DB.commit DB.totalSnaps
  split <;> simp

theorem store_message_pending_scans (s : RecvState) (d : Payload) (rt : ℚ) (lat : Option ℚ) :
    (store_message s d rt lat).db.pending_scans.length
      = if s.message_counts % 100 = 0 then 0 else s.db.pending_scans.length + 1 := by
  unfold store_message DB.commit
  split <;> simp_all


/-- The p95 index `int(len(latencies) * 0.95)` is always in range on a
nonempty list, so `sorted(latencies)[...]` never raises. -/
theorem p95_index_lt (n : ℕ) (h : 0 < n) : (⌊((n : ℚ) * (95 / 100) : ℚ)⌋).toNat < n := by
  have hq : ((n : ℚ) * (95 / 100) : ℚ) < (n : ℚ) := by
    have hn : (0 : ℚ) < (n : ℚ) := by exact_mod_cast h
    nlinarith
  have hnn : (0 : ℚ) ≤ ((n : ℚ) * (95 / 100) : ℚ) := by positivity
  have hfl : ⌊((n : ℚ) * (95 / 100) : ℚ)⌋ < (n : ℤ) := Int.floor_lt.mpr (by exact_mod_cast hq)
  exact (Int.toNat_lt (Int.floor_nonneg.mpr hnn)).mpr hfl

theorem latency_stats_isSome (l : List ℚ) (h : l ≠ []) :
    ∃ st : LatencyStats, latency_stats l = some st := by
  cases l with
  | nil => exact absurd rfl h
  | cons x xs =>
    have hlen : (⌊(((x :: xs).length : ℚ) * (95 / 100) : ℚ)⌋).toNat
        < ((x :: xs).mergeSort fun a b => decide (a ≤ b)).length := by
      rw [List.length_mergeSort]
      exact p95_index_lt _ (Nat.succ_pos _)
    exact ⟨_, by simp only [latency_stats, List.getElem?_eq_getElem hlen]; exact rfl⟩

theorem report_statistics_latencies (s : RecvState) (now : ℚ) :
    (report_statistics s now).latencies = s.latencies := by
  unfold report_statistics save_statistics_snapshot
  split <;> [rfl; (split <;> [rfl; (split <;> rfl)])]

theorem report_statistics_counts (s : RecvState) (now : ℚ) :
    (report_statistics s now).message_counts = s.message_counts := by
  unfold report_statistics save_statistics_snapshot
  split <;> [rfl; (split <;> [rfl; (split <;> rfl)])]

theorem report_statistics_allScans (s : RecvState) (now : ℚ) :
    (report_statistics s now).db.allScans = s.db.allScans := by
  unfold report_statistics save_statistics_snapshot DB.commit DB.allScans
  split
  · rfl
  · split
    · rfl
    · split <;> simp

theorem report_statistics_totalSnaps (s : RecvState) (now : ℚ) :
    (report_statistics s now).db.totalSnaps
      = s.db.totalSnaps +
        (if s.latencies ≠ [] ∧ s.message_counts % (100 * reporting_interval) = 0
         then 1 else 0) := by
  unfold report_statistics
  split
  · rename_i he
    simp [he]
  · rename_i hne
    rcases latency_stats_isSome s.latencies hne with ⟨st, hst⟩
    simp only [hst]
    by_cases hmod : s.message_counts % (100 * reporting_interval) = 0
    · simp [save_statistics_snapshot, DB.commit, DB.totalSnaps, hmod, hne]
      omega
    · simp [hmod, hne]

theorem report_statistics_commit_count (s : RecvState) (now : ℚ) :
    (report_statistics s now).db.commit_count
      = s.db.commit_count +
        (if s.latencies ≠ [] ∧ s.message_counts % (100 * reporting_interval) = 0
         then 1 else 0) := by
  unfold report_statistics
  split
  · rename_i he
    simp [he]
  · rename_i hne
    rcases latency_stats_isSome s.latencies hne with ⟨st, hst⟩
    simp only [hst]
    by_cases hmod : s.message_counts % (100 * reporting_interval) = 0
    · simp [save_statistics_snapshot, DB.commit, hmod, hne]
    · simp [hmod, hne]

theorem on_message_counts (s : RecvState) (d : Payload) (now : ℚ) :
    (on_message s (some d) now).message_counts = s.message_counts + 1 := by
  simp only [on_message]
  split <;> simp [report_statistics_counts, store_message_counts]

theorem on_message_latencies (s : RecvState) (d : Payload) (now : ℚ) :
    (on_message s (some d) now).latencies
      = s.latencies ++ (d.send_time.map fun st => (now - st) * 1000).toList := by
  simp only [on_message]
  split <;> simp [report_statistics_latencies, store_message_latencies]

theorem on_message_allScans (s : RecvState) (d : Payload) (now : ℚ) :
    (on_message s (some d) now).db.allScans
      = s.db.allScans ++ [⟨s.db.allScans.length + 1, d.timestamp.getD now, now,
          d.message_id.getD (-1), d.device_id.getD ("unknown"),
          d.send_time.map fun st => (now - st) * 1000⟩] := by
  simp only [on_message]
  split <;> simp [report_statistics_allScans, store_message_allScans]

/-- When the reporting interval has not elapsed, handling a message is
storage only: no report, no `last_report_time` reset. -/
theorem on_message_no_report (s : RecvState) (d : Payload) (now : ℚ)
    (hw : ¬((reporting_interval : ℚ) < now - s.last_report_time)) :
    on_message s (some d) now
      = store_message
          { s with latencies := s.latencies ++ ((d.send_time.map fun st => (now - st) * 1000)).toList
                   message_counts := s.message_counts + 1 }
          d now (d.send_time.map fun st => (now - st) * 1000) := by
  simp only [on_message, store_message_last_report]
  rw [if_neg hw]

/-- Invariant of the concrete run `msgTrace`: after `n` messages the counter
is `n`, every message contributed one latency sample and one scan row, the
store saw `n / 100` commits with `n % 100` rows still pending, no report
ever fired (the 5-second interval never elapsed at instant 1), and no
snapshot row was ever persisted. -/
theorem msgTrace_invariant (n : ℕ) :
    (msgTrace n).message_counts = n
    ∧ (msgTrace n).last_report_time = 0
    ∧ (msgTrace n).latencies.length = n
    ∧ (msgTrace n).db.allScans.length = n
    ∧ (msgTrace n).db.pending_scans.length = n % 100
    ∧ (msgTrace n).db.commit_count = n / 100
    ∧ (msgTrace n).db.totalSnaps = 0 := by
  induction n with
  | zero => simp [msgTrace, initState, DB.allScans, DB.totalSnaps]
  | succ n ih =>
    obtain ⟨hc, hl, hlat, hs, hp, hcc, hsn⟩ := ih
    have hw : ¬((reporting_interval : ℚ) < 1 - (msgTrace n).last_report_time) := by
      rw [hl]; norm_num [reporting_interval]
    have hstep := on_message_no_report (msgTrace n) samplePayload 1 hw
    rw [show msgTrace (n + 1) = on_message (msgTrace n) (some samplePayload) 1 from rfl, hstep]
    refine ⟨?_, ?_, ?_, ?_, ?_, ?_, ?_⟩
    · rw [store_message_counts]; simp [hc]
    · rw [store_message_last_report]; simpa using hl
    · rw [store_message_latencies]
      simp [samplePayload, hlat]
    · rw [store_message_allScans]
      simp only [List.length_append, List.length_cons, List.length_nil]
      simp [DB.allScans] at hs ⊢
      omega
    · rw [store_message_pending_scans]
      simp only [hc, hp]
      split <;> omega
    · rw [store_message_commit_count]
      simp only [hc, hcc]
      split <;> omega
    · rw [store_message_totalSnaps]
      simpa using hsn

/-- C5: the recorder commits the store transaction exactly at every 100th
successfully handled message — handling message `n` commits iff `n` is a
multiple of 100, never per-message — and `close_database` performs one
final flush; concretely, ingesting 250 messages produces exactly 2
mid-stream commits (200 rows durable, 50 still pending), and the shutdown
flush is the third commit, after which all 250 rows are durable and none
pending. -/
theorem commit_batching_every_100_messages :
    (∀ (s : RecvState) (d : Payload) (now : ℚ),
        s.db.commit_count < (on_message s (some d) now).db.commit_count
          ↔ (s.message_counts + 1) % 100 = 0)
    ∧ (msgTrace 250).db.commit_count = 2
    ∧ (msgTrace 250).db.committed_scans.length = 200
    ∧ (close_database (msgTrace 250)).db.commit_count = 3
    ∧ (close_database (msgTrace 250)).db.committed_scans.length = 250
    ∧ (close_database (msgTrace 250)).db.pending_scans.length = 0 := by
  have hinv := msgTrace_invariant 250
  obtain ⟨-, -, -, hs, hp, hcc, -⟩ := hinv
  have hsplit : (msgTrace 250).db.committed_scans.length
      + (msgTrace 250).db.pending_scans.length = 250 := by
    simpa [DB.allScans] using hs
  refine ⟨?_, ?_, ?_, ?_, ?_, ?_⟩
  · intro s d now
    simp only [on_message]
    split
    · rw [report_statistics_commit_count]
      simp only [store_message_commit_count, store_message_latencies,
        store_message_counts]
      constructor
      · intro h
        by_contra hA
        rw [if_neg hA] at h
        split at h
        · rename_i hB
          have h5 : (s.message_counts + 1) % (100 * reporting_interval) = 0 := hB.2
          simp only [reporting_interval] at h5
          omega
        · omega
      · intro hA
        rw [if_pos hA]
        split <;> omega
    · rw [store_message_commit_count]
      simp only [store_message_counts]
      by_cases hA : (s.message_counts + 1) % 100 = 0
      · simp [hA]
      · simp [hA]
  · rw [hcc]
  · have : (msgTrace 250).db.pending_scans.length = 50 := by rw [hp]
    omega
  · simp [close_database, DB.commit, hcc]
  · simp only [close_database, DB.commit, List.length_append]
    omega
  · simp [close_database, DB.commit]

/-- C2 (amended): a PerformanceSnapshot row is persisted only inside a
wall-clock-triggered statistics report.  Handling one decoded message
persists exactly one snapshot row when (i) more than `reporting_interval`
seconds passed since the last report, (ii) at least one latency sample has
accumulated, and (iii) the new message count is an exact multiple of
`100 * reporting_interval`; otherwise it persists none.  Snapshot
persistence is therefore additionally gated by the wall-clock reporting
trigger, not decoupled from it. -/
theorem snapshot_persistence_wall_clock_gated (s : RecvState) (d : Payload) (now : ℚ) :
    (on_message s (some d) now).db.totalSnaps
      = s.db.totalSnaps
        + (if ((reporting_interval : ℚ) < now - s.last_report_time)
              ∧ (s.latencies ++ ((d.send_time.map fun st => (now - st) * 1000)).toList) ≠ []
              ∧ (s.message_counts + 1) % (100 * reporting_interval) = 0
           then 1 else 0) := by
  simp only [on_message]
  split
  · rename_i hw
    rw [store_message_last_report] at hw
    rw [report_statistics_totalSnaps]
    simp only [store_message_totalSnaps, store_message_latencies, store_message_counts]
    by_cases hB : (s.latencies ++ ((d.send_time.map fun st => (now - st) * 1000)).toList) ≠ []
        ∧ (s.message_counts + 1) % (100 * reporting_interval) = 0
    · rw [if_pos hB, if_pos ⟨hw, hB.1, hB.2⟩]
    · rw [if_neg hB, if_neg (fun h => hB ⟨h.2.1, h.2.2⟩)]
  · rename_i hw
    rw [store_message_last_report] at hw
    rw [store_message_totalSnaps]
    rw [if_neg (fun h => hw h.1)]
    simp

/-- C2 (counterexample to the claim as stated): after 500 messages — a
`100 * reporting_interval` milestone, with latency samples available — not
one snapshot row has been persisted, because the wall-clock reporting
trigger never fired during the run; snapshot persistence is not
message-count-triggered independently of the wall-clock trigger. -/
theorem snapshot_milestone_not_persisted :
    (msgTrace 500).message_counts % (100 * reporting_interval) = 0
    ∧ (msgTrace 500).message_counts = 500
    ∧ (msgTrace 500).latencies ≠ []
    ∧ (msgTrace 500).db.totalSnaps = 0 := by
  obtain ⟨hc, -, hlat, -, -, -, hsn⟩ := msgTrace_invariant 500
  refine ⟨?_, hc, ?_, hsn⟩
  · rw [hc]
    norm_num [reporting_interval]
  · intro h
    rw [h] at hlat
    simp at hlat

/-- C6: for every decodable message the recorder handles, the scan row it
stores carries `latency_ms = (receive_time - send_time) * 1000` when the
payload has a `send_time` field, and no latency (`none`) otherwise. -/
theorem latency_recorded_iff_send_time (s : RecvState) (d : Payload) (now : ℚ) :
    ((on_message s (some d) now).db.allScans.getLast?).map ScanRow.latency_ms
      = some (d.send_time.map fun st => (now - st) * 1000) := by
  rw [on_message_allScans, List.getLast?_concat]
  rfl

/-- C10: every decodable payload is stored as exactly one new scan row even
when `timestamp`, `message_id` or `device_id` is missing: an absent
timestamp defaults to the receive-side time, an absent message id to -1,
an absent device id to "unknown"; handling never fails for a decodable
payload. -/
theorem store_defaults_missing_fields (s : RecvState) (d : Payload) (now : ℚ) :
    (on_message s (some d) now).db.allScans
      = s.db.allScans
        ++ [{ id := s.db.allScans.length + 1
              timestamp := d.timestamp.getD now
              receive_time := now
              message_id := d.message_id.getD (-1)
              device_id := d.device_id.getD ("unknown")
              latency_ms := d.send_time.map fun st => (now - st) * 1000 }] :=
  on_message_allScans s d now

/-- C7: for a nonempty list of `N` accumulated latency samples, the
reported p95 is the element at index `⌊0.95 * N⌋` (nearest-rank) of the
ascending sort of the samples: `latency_stats` succeeds, and its
`p95_latency` is that element of the sorted permutation of the input. -/
theorem p95_nearest_rank (l : List ℚ) (h : l ≠ []) :
    ∃ (st : LatencyStats)
      (hidx : (⌊((l.length : ℚ) * (95 / 100) : ℚ)⌋).toNat
        < (l.mergeSort fun a b => decide (a ≤ b)).length),
      latency_stats l = some st
      ∧ st.p95_latency
          = (l.mergeSort fun a b => decide (a ≤ b)).get
              ⟨(⌊((l.length : ℚ) * (95 / 100) : ℚ)⌋).toNat, hidx⟩
      ∧ List.Sorted (· ≤ ·) (l.mergeSort fun a b => decide (a ≤ b))
      ∧ (l.mergeSort fun a b => decide (a ≤ b)).Perm l := by
  cases l with
  | nil => exact absurd rfl h
  | cons x xs =>
    have hidx : (⌊(((x :: xs).length : ℚ) * (95 / 100) : ℚ)⌋).toNat
        < ((x :: xs).mergeSort fun a b => decide (a ≤ b)).length := by
      rw [List.length_mergeSort]
      exact p95_index_lt _ (Nat.succ_pos _)
    refine ⟨{ avg_latency := (x :: xs).sum / (((x :: xs).length : ℚ))
              min_latency := xs.foldl min x
              max_latency := xs.foldl max x
              p95_latency := ((x :: xs).mergeSort fun a b => decide (a ≤ b)).get
                ⟨(⌊(((x :: xs).length : ℚ) * (95 / 100) : ℚ)⌋).toNat, hidx⟩ },
      hidx, ?_, rfl, ?_, ?_⟩
    · simp only [latency_stats, List.getElem?_eq_getElem hidx]
      simp [List.get_eq_getElem]
    · exact List.sorted_mergeSort' _
    · exact List.mergeSort_perm _ _

/-- C7 witness: the nearest-rank p95 property instantiated on the concrete
sample list `[3, 1, 2]`. -/
theorem p95_nearest_rank_instance :
    (([3, 1, 2] : List ℚ) ≠ [])
    ∧ ∃ (st : LatencyStats)
        (hidx : (⌊((([3, 1, 2] : List ℚ).length : ℚ) * (95 / 100) : ℚ)⌋).toNat
          < (([3, 1, 2] : List ℚ).mergeSort fun a b => decide (a ≤ b)).length),
        latency_stats [3, 1, 2] = some st
        ∧ st.p95_latency
            = (([3, 1, 2] : List ℚ).mergeSort fun a b => decide (a ≤ b)).get
                ⟨(⌊((([3, 1, 2] : List ℚ).length : ℚ) * (95 / 100) : ℚ)⌋).toNat, hidx⟩
        ∧ List.Sorted (· ≤ ·) (([3, 1, 2] : List ℚ).mergeSort fun a b => decide (a ≤ b))
        ∧ (([3, 1, 2] : List ℚ).mergeSort fun a b => decide (a ≤ b)).Perm [3, 1, 2] :=
  ⟨by decide, p95_nearest_rank [3, 1, 2] (by decide)⟩

/-!
Part 2 — the point-cloud reconstruction pipeline
(src/visualizer/visualizer.py and src/visualizer/advanced_visualizer.py).

Point arrays are lists; coordinates of stored data are exact rationals,
while the polar-to-Cartesian conversion lands in `ℝ` because it applies
`cos`/`sin`.  The Open3D library calls (`remove_statistical_outlier`,
`segment_plane`) are external collaborators: each is passed in as a
function argument, since the claims below concern only the guard branches
the Python code takes before calling into Open3D.
-/

/-- A 3D point as the advanced pipeline stages handle it. -/
abbrev Point3 : Type := ℚ × ℚ × ℚ

/-- `filter_outliers(points, nb_neighbors=20, std_ratio=2.0)`
(advanced_visualizer.py lines 22-45): with fewer than `nb_neighbors + 1`
points the operation is a warned no-op returning the input and
`np.arange(len(points))`; otherwise it defers to Open3D's statistical
outlier removal, modelled by the function argument
`remove_statistical_outlier` (which also absorbs the `except` fallback). -/
def filter_outliers (remove_statistical_outlier : List Point3 → List Point3 × List ℕ)
    (points : List Point3) (nb_neighbors : ℕ) : List Point3 × List ℕ :=
  if points.length < nb_neighbors + 1 then (points, List.range points.length)
  else remove_statistical_outlier points

/-- `segment_ground_plane(points, distance_threshold=10.0, ransac_n=3,
num_iterations=100)` (advanced_visualizer.py lines 47-84): with fewer than
`ransac_n` points it returns `(points, [], [])` — in the function's result
order `(inlier_points, outlier_points, inlier_indices)`, so the whole
input sits in the inlier (ground) slot with an empty outlier (non-ground)
set and empty index set; otherwise it defers to Open3D's RANSAC plane
segmentation, modelled by the function argument `segment_plane` (which
also absorbs the `except` fallback and the `self.ground_plane` cache). -/
def segment_ground_plane
    (segment_plane : List Point3 → ℚ → ℕ → List Point3 × List Point3 × List ℕ)
    (points : List Point3) (distance_threshold : ℚ) (ransac_n : ℕ)
    (num_iterations : ℕ) : List Point3 × List Point3 × List ℕ :=
  if points.length < ransac_n then (points, [], [])
  else segment_plane points distance_threshold num_iterations

/-- The dictionary `calculate_object_dimensions` returns
(advanced_visualizer.py lines 160-167). -/
structure ObjectDimensions where
  center : Point3
  width : ℚ
  depth : ℚ
  height : ℚ
  min_coords : Point3
  max_coords : Point3

/-- `calculate_object_dimensions(points)` (advanced_visualizer.py lines
143-170): with fewer than 3 points it warns and returns `None` — the error
is the caller's to see, there is no default dimension record; otherwise
per-axis min/max, extents `max - min`, center `(min + max) / 2`. -/
def calculate_object_dimensions (points : List Point3) : Option ObjectDimensions :=
  if points.length < 3 then none
  else
    match points with
    | [] => none
    | p :: ps =>
      let mn := ps.foldl (fun a b => (min a.1 b.1, min a.2.1 b.2.1, min a.2.2 b.2.2)) p
      let mx := ps.foldl (fun a b => (max a.1 b.1, max a.2.1 b.2.1, max a.2.2 b.2.2)) p
      some { center := ((mn.1 + mx.1) / 2, (mn.2.1 + mx.2.1) / 2, (mn.2.2 + mx.2.2) / 2)
             width := mx.1 - mn.1
             depth := mx.2.1 - mn.2.1
             height := mx.2.2 - mn.2.2
             min_coords := mn
             max_coords := mx }

/-- The character list split at every occurrence of a separator, keeping
empty pieces — the semantics of Python's `str.split(sep)` for a one-character
separator, used on the angle labels and on the decimal point. -/
def splitOnChar (sep : Char) : List Char → List (List Char)
  | [] => [[]]
  | c :: cs =>
    if c = sep then [] :: splitOnChar sep cs
    else
      match splitOnChar sep cs with
      | [] => [[c]]
      | g :: gs => (c :: g) :: gs

/-- A nonempty all-digit character list read as a natural number;
`none` otherwise. -/
def parseDigits (cs : List Char) : Option ℕ :=
  if cs = [] then none
  else if cs.all Char.isDigit then
    some (cs.foldl (fun n c => n * 10 + (c.toNat - 48)) 0)
  else none

/-- The decimal-literal subset of Python's `float(...)` conversion used on
angle labels: an optional sign, then digits with an optional fractional
part ("90", "-12.5", "7.", ".25").  Exponent notation, inf/nan and
surrounding whitespace — which no angle label produced by this system
carries — are outside the subset and parse to `none`, as malformed labels
do in the source (`ValueError` → reading skipped). -/
def parseFloat (cs : List Char) : Option ℚ :=
  let unsigned : List Char → Option ℚ := fun body =>
    match splitOnChar ('.') body with
    | [ip] => (parseDigits ip).map fun n => (n : ℚ)
    | [ip, fp] =>
      match ip, fp with
      | [], [] => none
      | [], _ => (parseDigits fp).map fun f => (f : ℚ) / 10 ^ fp.length
      | _, [] => (parseDigits ip).map fun n => (n : ℚ)
      | _, _ =>
        match parseDigits ip, parseDigits fp with
        | some n, some f => some ((n : ℚ) + (f : ℚ) / 10 ^ fp.length)
        | _, _ => none
    | _ => none
  match cs with
  | '-' :: rest => (unsigned rest).map Neg.neg
  | '+' :: rest => unsigned rest
  | _ => unsigned cs

/-- `float(angle_key.split('_')[1])` with its `except (IndexError,
ValueError)` guard (visualizer.py lines 193-198): split the label at
underscores, take piece 1 (`none` when there is no piece 1), read it as a
number (`none` when malformed). -/
def parseAngle (angle_key : String) : Option ℚ :=
  match (splitOnChar ('_') angle_key.data).get? 1 with
  | none => none
  | some piece => parseFloat piece

/-- Lines 200-207 of visualizer.py: degrees to radians (`np.radians`), then
`x = distance * cos(angle)`, `y = distance * sin(angle)`, `z = 0.0` —
the planar-sensor assumption. -/
noncomputable def polar_to_point (angle_deg : ℚ) (distance : ℚ) : ℝ × ℝ × ℝ :=
  ((distance : ℝ) * Real.cos ((angle_deg : ℝ) * Real.pi / 180),
   (distance : ℝ) * Real.sin ((angle_deg : ℝ) * Real.pi / 180),
   (0 : ℝ))

/-- A scan as `get_latest_scan`/`get_historical_scan` return it: timestamp,
device id, and the angle-label → distance readings in iteration order.
(The Python value is a dict that always carries a `readings` key when it is
not `None`; the `'readings' not in scan_data` guard of line 179 is
unreachable for these inputs and has no counterpart here.) -/
structure ScanData where
  timestamp : ℚ
  device_id : String
  readings : List (String × ℚ)

/-- The error `convert_readings_to_points` can raise: `max(())` on an empty
values sequence raises `ValueError`. -/
inductive PyError where
  | valueError

/-- `convert_readings_to_points(scan_data)` (visualizer.py lines 177-217).
`none` in, or a scan without readings key, gives `(None, None)` — modelled
as `Except.ok none`.  Otherwise `max_distance = max(readings.values())`
raises `ValueError` on an empty readings set; with readings present, each
label that parses contributes the polar-to-Cartesian point and its color —
the colormap applied to `distance / max_distance` (0 when the maximum is
not positive).  The `viridis` colormap itself is an external fixed map
from `[0, 1]` to RGB; the embedding records its argument, the normalized
distance. -/
noncomputable def convert_readings_to_points (scan_data : Option ScanData) :
    Except PyError (Option (List (ℝ × ℝ × ℝ) × List ℚ)) :=
  match scan_data with
  | none => .ok none
  | some s =>
    match (s.readings.map Prod.snd).max? with
    | none => .error .valueError
    | some max_distance =>
      let pairs := s.readings.filterMap fun kv =>
        (parseAngle kv.1).map fun angle_deg =>
          (polar_to_point angle_deg kv.2,
           if 0 < max_distance then kv.2 / max_distance else 0)
      .ok (some (pairs.map Prod.fst, pairs.map Prod.snd))

/-- C1: with fewer than 3 points the Dimension Calculator reports failure
to its caller — the result is `none`, not a dimension record; there is no
default or empty `ObjectDimensions` it could fall back to. -/
theorem dimensions_insufficient_data_reported (points : List Point3)
    (h : points.length < 3) :
    calculate_object_dimensions points = none := by
  unfold calculate_object_dimensions
  rw [if_pos h]

/-- C1 witness: a single point is below the 3-point precondition and gets
the reported failure. -/
theorem dimensions_insufficient_data_reported_instance :
    ([((0 : ℚ), (0 : ℚ), (0 : ℚ))].length < 3)
    ∧ calculate_object_dimensions [((0 : ℚ), (0 : ℚ), (0 : ℚ))] = none :=
  ⟨by decide, dimensions_insufficient_data_reported _ (by decide)⟩

/-- C9: with fewer than `k + 1` points the outlier filter is the identity:
the input comes back unchanged with the full original index set
`[0, ..., len - 1]`, and no error is raised (the result type is plain). -/
theorem filter_outliers_noop_below_k_plus_1
    (remove_statistical_outlier : List Point3 → List Point3 × List ℕ)
    (points : List Point3) (k : ℕ) (h : points.length < k + 1) :
    filter_outliers remove_statistical_outlier points k
      = (points, List.range points.length) := by
  unfold filter_outliers
  rw [if_pos h]

/-- C9 witness: two points with the default `nb_neighbors = 20` — the
filter returns them unchanged with indices `[0, 1]`. -/
theorem filter_outliers_noop_below_k_plus_1_instance :
    ([((1 : ℚ), 2, 3), ((4 : ℚ), 5, 6)].length < 20 + 1)
    ∧ filter_outliers (fun _ => ([], [])) [((1 : ℚ), 2, 3), ((4 : ℚ), 5, 6)] 20
        = ([((1 : ℚ), 2, 3), ((4 : ℚ), 5, 6)], List.range 2) :=
  ⟨by decide, filter_outliers_noop_below_k_plus_1 _ _ _ (by decide)⟩

/-- C4 (amended): with fewer than `ransac_n` points the ground-plane
segmentor is a no-op that returns the entire input as the ground (inlier)
point set — the first slot of `(inlier_points, outlier_points, inliers)` —
with an empty non-ground (outlier) point set and an empty inlier index
set. -/
theorem segment_ground_noop_input_as_ground
    (segment_plane : List Point3 → ℚ → ℕ → List Point3 × List Point3 × List ℕ)
    (points : List Point3) (distance_threshold : ℚ) (ransac_n num_iterations : ℕ)
    (h : points.length < ransac_n) :
    segment_ground_plane segment_plane points distance_threshold ransac_n num_iterations
      = (points, [], []) := by
  unfold segment_ground_plane
  rw [if_pos h]

/-- C4 witness: one point with the default `ransac_n = 3` — the degraded
result carries the input in the ground slot. -/
theorem segment_ground_noop_input_as_ground_instance :
    ([((1 : ℚ), 2, 3)].length < 3)
    ∧ segment_ground_plane (fun _ _ _ => ([], [], [])) [((1 : ℚ), 2, 3)] 10 3 100
        = ([((1 : ℚ), 2, 3)], [], []) :=
  ⟨by decide, segment_ground_noop_input_as_ground _ _ _ _ _ (by decide)⟩

/-- C4 (counterexample to the claim as stated): on the one-point input the
degraded segmentor does NOT return the input as the non-ground (outlier)
set with an empty ground set — the non-ground set is empty and the ground
set is the input. -/
theorem segment_ground_noop_not_nonground :
    ¬ ((segment_ground_plane (fun _ _ _ => ([], [], [])) [((1 : ℚ), 2, 3)] 10 3 100).2.1
          = [((1 : ℚ), 2, 3)]
        ∧ (segment_ground_plane (fun _ _ _ => ([], [], [])) [((1 : ℚ), 2, 3)] 10 3 100).1
          = []) := by
  decide

/-- C3 (amended): on a scan whose readings set is empty, the Scan
Reconstructor raises — `max(readings.values())` is the `max` of an empty
sequence, a `ValueError` — instead of returning an empty result. -/
theorem convert_empty_readings_raises (t : ℚ) (dev : String) :
    convert_readings_to_points (some ⟨t, dev, []⟩) = .error .valueError := rfl

/-- C3 (counterexample to the claim as stated): on a concrete scan with an
empty readings set the conversion result is the `ValueError`, not the
empty parallel arrays the claim promises. -/
theorem convert_empty_readings_not_empty_result :
    convert_readings_to_points (some ⟨0, ("sensor"), []⟩) = .error .valueError
    ∧ convert_readings_to_points (some ⟨0, ("sensor"), []⟩) ≠ .ok (some ([], [])) := by
  refine ⟨rfl, ?_⟩
  intro h
  rw [show convert_readings_to_points (some ⟨0, ("sensor"), []⟩) = .error .valueError from rfl] at h
  cases h

/-- C8: each reading whose label parses to a degree value `a` becomes the
point `(distance * cos(a * pi / 180), distance * sin(a * pi / 180), 0)`;
in particular the concrete scan `{"angle_0": 100, "angle_90": 50}`
converts to exactly the points `(100, 0, 0)` and `(0, 50, 0)` (so also
within the 1e-6 tolerance), with colors driven by the distances normalized
by the scan maximum, `1` and `1/2`. -/
theorem polar_conversion_formula :
    (∀ (angle_deg distance : ℚ),
        polar_to_point angle_deg distance
          = ((distance : ℝ) * Real.cos ((angle_deg : ℝ) * Real.pi / 180),
             (distance : ℝ) * Real.sin ((angle_deg : ℝ) * Real.pi / 180), (0 : ℝ)))
    ∧ convert_readings_to_points
        (some ⟨0, ("lidar"), [(("angle_0"), 100), (("angle_90"), 50)]⟩)
      = .ok (some ([((100 : ℝ), 0, 0), ((0 : ℝ), 50, 0)], [1, 1 / 2])) := by
  refine ⟨fun _ _ => rfl, ?_⟩
  have h0 : parseAngle ("angle_0") = some 0 := by decide
  have h90 : parseAngle ("angle_90") = some 90 := by decide
  have hmax : (([(("angle_0" : String), (100 : ℚ)), (("angle_90" : String), 50)].map
      Prod.snd).max?) = some 100 := by decide
  have p1 : polar_to_point 0 100 = ((100 : ℝ), 0, 0) := by
    unfold polar_to_point
    norm_num
  have p2 : polar_to_point 90 50 = ((0 : ℝ), 50, 0) := by
    have h : ((90 : ℚ) : ℝ) * Real.pi / 180 = Real.pi / 2 := by
      push_cast
      ring
    unfold polar_to_point
    rw [h, Real.cos_pi_div_two, Real.sin_pi_div_two]
    norm_num
  simp only [convert_readings_to_points, hmax, List.filterMap_cons, List.filterMap_nil,
    h0, h90, Option.map_some', p1, p2]
  norm_num
